import Mathlib

/-!
Verification of the document CRUD routes of SurfSense
(`surfsense_backend/app/routes/documents_routes.py`).

The routes are embedded shallowly: the database visible to the handlers is a
pair of tables (search spaces and documents), each request handler is a pure
function from the database and the request data to the handler's effects
(scheduled background tasks, created temporary files, the new database state)
together with either an HTTP error or a response body.  Exceptions raised and
caught in the Python code become `Except` values here; the `try/except`
structure of every handler is reproduced faithfully, including which handlers
re-raise `HTTPException` unchanged and which wrap every exception in a 500.
-/

namespace SurfSense

/-- An authenticated user, as used by the routes (only `user.id` is read). -/
structure User where
  id : Nat
  deriving Repr, DecidableEq

/-- Modelled from the spec: `DocumentType` is imported from `app.db`, which is
not among the sources.  The spec's data model enumerates the types
"extension capture, crawled URL, file upload, YouTube video, …"; the routes
branch on `EXTENSION`, `CRAWLED_URL` and `YOUTUBE_VIDEO` and reject everything
else, so `FILE` is a representative unsupported value for the structured
submission endpoint. -/
inductive DocumentType where
  | EXTENSION
  | CRAWLED_URL
  | YOUTUBE_VIDEO
  | FILE
  deriving Repr, DecidableEq

/-- A `SearchSpace` row: the tenant boundary, owned by the user `user_id`. -/
structure SearchSpace where
  id : Nat
  user_id : Nat
  deriving Repr, DecidableEq

/-- A `Document` row, with the columns the routes read and write. -/
structure Document where
  id : Nat
  title : String
  document_type : DocumentType
  document_metadata : String
  content : String
  created_at : Nat
  search_space_id : Nat
  deriving Repr, DecidableEq

/-- The database state visible to these routes: the two tables they touch. -/
structure DB where
  searchSpaces : List SearchSpace
  documents : List Document
  deriving Repr, DecidableEq

/-- An `HTTPException` as raised by the handlers: a status code and a detail
message. -/
structure HTTPException where
  status_code : Nat
  detail : String
  deriving Repr, DecidableEq

/-- How a caught `HTTPException` renders inside an f-string: `str(e)` of a
starlette/FastAPI `HTTPException` is `"{status_code}: {detail}"`. -/
def http_exception_str (e : HTTPException) : String :=
  toString e.status_code ++ ": " ++ e.detail

/-- The `DocumentRead` response model, with exactly the fields every handler
copies out of the ORM object. -/
structure DocumentRead where
  id : Nat
  title : String
  document_type : DocumentType
  document_metadata : String
  content : String
  created_at : Nat
  search_space_id : Nat
  deriving Repr, DecidableEq

/-- The field-by-field conversion from a `Document` row to the `DocumentRead`
response performed inline by `read_documents`, `read_document` and
`update_document`. -/
def toDocumentRead (doc : Document) : DocumentRead :=
  { id := doc.id
    title := doc.title
    document_type := doc.document_type
    document_metadata := doc.document_metadata
    content := doc.content
    created_at := doc.created_at
    search_space_id := doc.search_space_id }

/-- Modelled from the spec: `check_ownership` lives in
`app/utils/check_ownership.py`, which is not among the sources.  Per the spec
it "validates ownership" of the search space with the given id for the
requesting user and raises an HTTP error, whose status propagates unchanged,
when the space is missing or owned by someone else. -/
def check_ownership (db : DB) (search_space_id : Nat) (user : User) :
    Except HTTPException SearchSpace :=
  match db.searchSpaces.find? (fun s => s.id == search_space_id && s.user_id == user.id) with
  | some s => Except.ok s
  | none =>
      Except.error
        ⟨404, "Search space not found or you do not have permission to access it"⟩

/-- The SQL join `select(Document).join(SearchSpace)`: every pair of a
document row and a search-space row related by the foreign key
`Document.search_space_id == SearchSpace.id`. -/
def documentsJoinSearchSpace (db : DB) : List (Document × SearchSpace) :=
  db.documents.flatMap fun d =>
    (db.searchSpaces.filter fun s => s.id == d.search_space_id).map fun s => (d, s)

/-- The rows produced by
`select(Document).join(SearchSpace).filter(SearchSpace.user_id == user.id)`,
the query of the list endpoint (before offset/limit are applied). -/
def ownedDocuments (db : DB) (user : User) : List Document :=
  ((documentsJoinSearchSpace db).filter fun p => p.2.user_id == user.id).map Prod.fst

/-- The single-document query
`select(Document).join(SearchSpace).filter(Document.id == document_id,
SearchSpace.user_id == user.id)` followed by `.scalars().first()`, issued
verbatim by `read_document`, `update_document` and `delete_document`. -/
def firstOwnedDocument (db : DB) (user : User) (document_id : Nat) : Option Document :=
  (((documentsJoinSearchSpace db).filter
      fun p => p.1.id == document_id && p.2.user_id == user.id).map Prod.fst).head?

/-- Executable ownership test: some search-space row has this id and belongs
to the user. -/
def isOwned (db : DB) (user : User) (search_space_id : Nat) : Bool :=
  db.searchSpaces.any fun s => s.id == search_space_id && s.user_id == user.id

/-- Default value of the `skip` query parameter of `GET /documents/`. -/
def read_documents_default_skip : Nat := 0

/-- Default value of the `limit` query parameter of `GET /documents/`. -/
def read_documents_default_limit : Nat := 300

/-- Handler of `GET /documents/`: the tenant-filtered join with
`.offset(skip).limit(limit)`, each row converted to `DocumentRead`.  The
handler's `except Exception` clause only wraps database failures, which the
embedding does not model, so the result is always `ok`. -/
def read_documents (db : DB) (user : User) (skip : Nat) (limit : Nat) :
    Except HTTPException (List DocumentRead) :=
  let db_documents := ((ownedDocuments db user).drop skip).take limit
  Except.ok (db_documents.map toDocumentRead)

/-- Body of the `try` block of `GET /documents/{document_id}`: the ownership-
filtered lookup, raising 404 when no row matches. -/
def read_document_inner (db : DB) (user : User) (document_id : Nat) :
    Except HTTPException DocumentRead :=
  match firstOwnedDocument db user document_id with
  | some document => Except.ok (toDocumentRead document)
  | none =>
      Except.error ⟨404, "Document with id " ++ toString document_id ++ " not found"⟩

/-- Handler of `GET /documents/{document_id}`.  Unlike its sibling endpoints
this handler has no `except HTTPException: raise` clause: its bare
`except Exception as e` also catches the `HTTPException(404)` raised inside
the `try` block and re-wraps it as a 500 whose detail embeds `str(e)`. -/
def read_document (db : DB) (user : User) (document_id : Nat) :
    Except HTTPException DocumentRead :=
  match read_document_inner db user document_id with
  | Except.ok r => Except.ok r
  | Except.error e =>
      Except.error ⟨500, "Failed to fetch document: " ++ http_exception_str e⟩

/-- Modelled from the spec: `DocumentUpdate` comes from `app.schemas`, which is
not among the sources.  Per the spec the update body is a partial update in
which every updatable column is optional, and
`model_dump(exclude_unset=True)` yields exactly the fields explicitly present
in the request body. -/
structure DocumentUpdate where
  title : Option String
  document_type : Option DocumentType
  document_metadata : Option String
  content : Option String
  search_space_id : Option Nat
  deriving Repr, DecidableEq

/-- The `for key, value in update_data.items(): setattr(db_document, key, value)`
loop: every field present (set) in the payload is assigned, every omitted
field keeps the stored value. -/
def applyUpdate (u : DocumentUpdate) (d : Document) : Document :=
  { d with
    title := u.title.getD d.title
    document_type := u.document_type.getD d.document_type
    document_metadata := u.document_metadata.getD d.document_metadata
    content := u.content.getD d.content
    search_space_id := u.search_space_id.getD d.search_space_id }

/-- Handler of `PUT /documents/{document_id}`.  Returns the new database state
together with the response; on every error path the state is unchanged (the
404 path mutates nothing, and the broad handler rolls back).  The
`except HTTPException: raise` clause passes the 404 through unchanged.
Note the mutation via `setattr` applies whatever fields the payload sets,
`search_space_id` included, with no ownership check on the destination
search space. -/
def update_document (db : DB) (user : User) (document_id : Nat)
    (document_update : DocumentUpdate) : DB × Except HTTPException DocumentRead :=
  match firstOwnedDocument db user document_id with
  | none =>
      (db, Except.error ⟨404, "Document with id " ++ toString document_id ++ " not found"⟩)
  | some db_document =>
      let updated := applyUpdate document_update db_document
      ({ db with
          documents := db.documents.map fun d => if d.id == db_document.id then updated else d },
       Except.ok (toDocumentRead updated))

/-- Handler of `DELETE /documents/{document_id}`.  Returns the new database
state together with the response; the 404 path performs no delete and no
commit, and `except HTTPException: raise` passes the 404 through unchanged
(`session.delete(document)` removes exactly the fetched row, embedded as
`List.erase` of that row). -/
def delete_document (db : DB) (user : User) (document_id : Nat) :
    DB × Except HTTPException String :=
  match firstOwnedDocument db user document_id with
  | none =>
      (db, Except.error ⟨404, "Document with id " ++ toString document_id ++ " not found"⟩)
  | some document =>
      ({ db with documents := db.documents.erase document },
       Except.ok "Document deleted successfully")

/-- A unit of work handed to `fastapi_background_tasks.add_task`, one
constructor per `process_*_with_new_session` entry point. -/
inductive BackgroundTask where
  | process_extension_document (individual_document : String) (search_space_id : Nat)
  | process_crawled_url (url : String) (search_space_id : Nat)
  | process_youtube_video (url : String) (search_space_id : Nat)
  | process_file (temp_path : String) (filename : String) (search_space_id : Nat)
  deriving Repr, DecidableEq

/-- The `DocumentsCreate` request body of `POST /documents/`: a document type,
a list of content items (extension payloads or URLs), and the target search
space. -/
structure DocumentsCreate where
  document_type : DocumentType
  content : List String
  search_space_id : Nat
  deriving Repr, DecidableEq

/-- Handler of `POST /documents/` (`create_documents`).  Returns the list of
background tasks scheduled by the handler body together with the outcome.
Ownership is checked first; then the handler branches on the document type,
scheduling one task per content item for the three supported types and
raising a 400 before scheduling anything for any other type.  The
`except HTTPException: raise` clause passes client errors through
unchanged. -/
def create_documents (db : DB) (user : User) (request : DocumentsCreate) :
    List BackgroundTask × Except HTTPException String :=
  match check_ownership db request.search_space_id user with
  | Except.error e => ([], Except.error e)
  | Except.ok _ =>
    match request.document_type with
    | DocumentType.EXTENSION =>
        (request.content.map fun c =>
            BackgroundTask.process_extension_document c request.search_space_id,
         Except.ok "Documents processed successfully")
    | DocumentType.CRAWLED_URL =>
        (request.content.map fun url =>
            BackgroundTask.process_crawled_url url request.search_space_id,
         Except.ok "Documents processed successfully")
    | DocumentType.YOUTUBE_VIDEO =>
        (request.content.map fun url =>
            BackgroundTask.process_youtube_video url request.search_space_id,
         Except.ok "Documents processed successfully")
    | _ => ([], Except.error ⟨400, "Invalid document type"⟩)

/-- One uploaded file of a `POST /documents/fileupload` request.
`stagingError` abstracts whether buffering this file's content and writing it
to the temporary path raises (`some msg` carries the exception's message);
the request data itself cannot be modelled finer than this outcome. -/
structure UploadFile where
  filename : String
  stagingError : Option String
  deriving Repr, DecidableEq

/-- The uniquely named temporary path `tempfile.NamedTemporaryFile` hands to
the i-th staged file of a request; the OS-chosen name is abstracted as a
function of the position, unique across the request. -/
def tempName (i : Nat) : String :=
  "/tmp/tmpupload" ++ toString i

/-- The `for file in files` staging loop of the upload handler, processing
files in order from position `i`: create the temp file, buffer and write the
content, schedule a `process_file_in_background_with_new_session` task; a
staging failure raises a 422 naming that file and stops the loop.  Returns
(temporary paths created, tasks scheduled, the raised exception if any). -/
def stage_files (files : List UploadFile) (search_space_id : Nat) (i : Nat) :
    List String × List BackgroundTask × Option HTTPException :=
  match files with
  | [] => ([], [], none)
  | file :: rest =>
    let temp_path := tempName i
    match file.stagingError with
    | some msg =>
        ([temp_path], [],
         some ⟨422, "Failed to process file " ++ file.filename ++ ": " ++ msg⟩)
    | none =>
        let r := stage_files rest search_space_id (i + 1)
        (temp_path :: r.1,
         BackgroundTask.process_file temp_path file.filename search_space_id :: r.2.1,
         r.2.2)

/-- Handler of `POST /documents/fileupload` (also named `create_documents` in
the source).  Returns (temporary files created, background tasks scheduled,
outcome).  Ownership is checked first, an empty file list raises a 400 before
the staging loop runs, and a staging failure surfaces as that file's 422
through `except HTTPException: raise`.  Tasks attached before an error
response are never executed by FastAPI, but they were scheduled; both lists
record exactly what the handler body did before returning. -/
def create_documents_fileupload (db : DB) (user : User) (files : List UploadFile)
    (search_space_id : Nat) :
    List String × List BackgroundTask × Except HTTPException String :=
  match check_ownership db search_space_id user with
  | Except.error e => ([], [], Except.error e)
  | Except.ok _ =>
    if files.isEmpty then
      ([], [], Except.error ⟨400, "No files provided"⟩)
    else
      match stage_files files search_space_id 0 with
      | (paths, tasks, some e) => (paths, tasks, Except.error e)
      | (paths, tasks, none) => (paths, tasks, Except.ok "Files uploaded for processing")

/-- The temporary paths the staging loop creates for a prefix of all-successful
files starting at position `i` (used to state what the loop did before the
first failure). -/
def staged_paths (files : List UploadFile) (i : Nat) : List String :=
  match files with
  | [] => []
  | _ :: rest => tempName i :: staged_paths rest (i + 1)

/-- The background tasks the staging loop schedules for a prefix of
all-successful files starting at position `i`. -/
def staged_tasks (files : List UploadFile) (search_space_id : Nat) (i : Nat) :
    List BackgroundTask :=
  match files with
  | [] => []
  | file :: rest =>
      BackgroundTask.process_file (tempName i) file.filename search_space_id ::
        staged_tasks rest search_space_id (i + 1)

/-- The background routine `process_file_in_background`, abstracted over the
outcomes of its three effectful steps: `loader.load()` (`loadResult`),
`os.unlink(file_path)` (`unlinkFails`; its failure is swallowed by the bare
`except: pass`), and `add_received_file_document` (`addResult`).  Returns
(whether the temporary file was deleted, the errors logged).  The routine
itself never raises: its outer `except Exception` only logs. -/
def process_file_in_background (loadResult : Except String (List String))
    (unlinkFails : Bool) (addResult : Except String Unit) : Bool × List String :=
  match loadResult with
  | Except.error e => (false, ["Error processing file in background: " ++ e])
  | Except.ok _ =>
      let deleted := !unlinkFails
      match addResult with
      | Except.ok _ => (deleted, [])
      | Except.error e => (deleted, ["Error processing file in background: " ++ e])

/-! Concrete instances used to evaluate the handlers on closed inputs. -/

/-- A concrete authenticated user. -/
def user1 : User := ⟨1⟩

/-- A search space owned by `user1`. -/
def ss1 : SearchSpace := ⟨1, 1⟩

/-- A search space owned by a different user (id 2). -/
def ss2 : SearchSpace := ⟨2, 2⟩

/-- A document row with the given id living in the given search space. -/
def mkDoc (i search_space_id : Nat) : Document :=
  ⟨i, "title", DocumentType.FILE, "meta", "content", 0, search_space_id⟩

/-- A database with one search space of `user1` holding five documents. -/
def db5 : DB := ⟨[ss1], [mkDoc 1 1, mkDoc 2 1, mkDoc 3 1, mkDoc 4 1, mkDoc 5 1]⟩

/-- A database with two tenants: document 10 belongs to `user1`'s space,
document 20 to the other user's space. -/
def dbTwo : DB := ⟨[ss1, ss2], [mkDoc 10 1, mkDoc 20 2]⟩

/-- An update payload in which only `title` is set. -/
def updTitleOnly : DocumentUpdate := ⟨some "new title", none, none, none, none⟩

/-- An uploaded file whose staging succeeds. -/
def fileA_ok : UploadFile := ⟨"a.txt", none⟩

/-- A second uploaded file whose staging succeeds. -/
def fileB_ok : UploadFile := ⟨"b.txt", none⟩

/-- An uploaded file whose staging raises. -/
def fileA_bad : UploadFile := ⟨"a.txt", some "boom"⟩

/-- Another uploaded file whose staging raises. -/
def fileC_bad : UploadFile := ⟨"c.txt", some "disk full"⟩

/-- A structured submission whose `document_type` is unsupported by the
routes. -/
def reqInvalidType : DocumentsCreate := ⟨DocumentType.FILE, ["item"], 1⟩

/-! Helper lemmas about the ownership-filtered queries. -/

/-- Every row of the tenant-filtered join belongs to a search space of the
requesting user. -/
theorem mem_ownedDocuments {db : DB} {user : User} {d : Document}
    (h : d ∈ ownedDocuments db user) : isOwned db user d.search_space_id = true := by
  unfold ownedDocuments at h
  rcases List.mem_map.1 h with ⟨p, hp, rfl⟩
  rcases List.mem_filter.1 hp with ⟨hmem, hu⟩
  unfold documentsJoinSearchSpace at hmem
  rcases List.mem_flatMap.1 hmem with ⟨d0, _, hpair⟩
  rcases List.mem_map.1 hpair with ⟨s, hs, rfl⟩
  rcases List.mem_filter.1 hs with ⟨hsmem, hsid⟩
  unfold isOwned
  refine List.any_eq_true.2 ⟨s, hsmem, ?_⟩
  simp only [Bool.and_eq_true, beq_iff_eq] at hsid hu ⊢
  exact ⟨hsid, hu⟩

/-- The single-document query returns a stored row with the requested id whose
owning search space belongs to the requesting user. -/
theorem firstOwnedDocument_spec {db : DB} {user : User} {document_id : Nat} {d : Document}
    (h : firstOwnedDocument db user document_id = some d) :
    d ∈ db.documents ∧ d.id = document_id ∧ isOwned db user d.search_space_id = true := by
  unfold firstOwnedDocument at h
  have hmem := List.mem_of_mem_head? (Option.mem_def.2 h)
  rcases List.mem_map.1 hmem with ⟨p, hp, rfl⟩
  rcases List.mem_filter.1 hp with ⟨hj, hpred⟩
  unfold documentsJoinSearchSpace at hj
  rcases List.mem_flatMap.1 hj with ⟨d0, hd0, hpair⟩
  rcases List.mem_map.1 hpair with ⟨s, hs, rfl⟩
  rcases List.mem_filter.1 hs with ⟨hsmem, hsid⟩
  simp only [Bool.and_eq_true, beq_iff_eq] at hpred hsid
  refine ⟨hd0, hpred.1, ?_⟩
  unfold isOwned
  refine List.any_eq_true.2 ⟨s, hsmem, ?_⟩
  simp only [Bool.and_eq_true, beq_iff_eq]
  exact ⟨hsid, hpred.2⟩

/-- Unfolding equation of the list handler (its `let` binding zeta-reduced). -/
theorem read_documents_eq (db : DB) (user : User) (skip limit : Nat) :
    read_documents db user skip limit =
      Except.ok ((((ownedDocuments db user).drop skip).take limit).map toDocumentRead) :=
  rfl

/-! Claim theorems. -/

/-- C2: GET /documents/{id} on an id not owned by the requesting user does
NOT return its 404 unchanged: the handler's bare `except Exception` clause
also catches the `HTTPException(404)` raised inside the `try` block and
re-wraps it as a 500 (this handler alone lacks the `except HTTPException:
raise` guard its sibling endpoints have).  Evaluated at a concrete failing
input: an empty database and document id 5, the inner `try` body raises the
intended 404, and the endpoint answers 500. -/
theorem read_document_not_found_wrapped_as_500 :
    read_document_inner ⟨[], []⟩ user1 5 =
      Except.error ⟨404, "Document with id 5 not found"⟩ ∧
    read_document ⟨[], []⟩ user1 5 =
      Except.error ⟨500, "Failed to fetch document: 404: Document with id 5 not found"⟩ :=
  ⟨rfl, rfl⟩

/-- C3: DELETE /documents/{id} with no document of that id owned by the
requesting user answers 404 (passed through unchanged by `except
HTTPException: raise`, hence not a 500), and on that path the database state
is returned unchanged: no delete and no commit happened. -/
theorem delete_document_not_found_404 (db : DB) (user : User) (document_id : Nat)
    (h : firstOwnedDocument db user document_id = none) :
    delete_document db user document_id =
      (db, Except.error ⟨404, "Document with id " ++ toString document_id ++ " not found"⟩) := by
  unfold delete_document
  rw [h]

/-- Witness for C3: deleting the absent document id 999 from the two-tenant
database leaves it unchanged and answers 404. -/
theorem delete_document_not_found_404_witness :
    delete_document dbTwo user1 999 =
      (dbTwo, Except.error ⟨404, "Document with id " ++ toString 999 ++ " not found"⟩) :=
  delete_document_not_found_404 dbTwo user1 999 rfl

/-- C4: a POST /documents/ request whose `document_type` is none of the three
supported values (EXTENSION, CRAWLED_URL, YOUTUBE_VIDEO) fails with a 400
client error, with zero background tasks scheduled before the failure
(given the ownership check passed, which runs first). -/
theorem create_documents_invalid_type_400 (db : DB) (user : User)
    (request : DocumentsCreate) (s : SearchSpace)
    (hown : check_ownership db request.search_space_id user = Except.ok s)
    (h1 : request.document_type ≠ DocumentType.EXTENSION)
    (h2 : request.document_type ≠ DocumentType.CRAWLED_URL)
    (h3 : request.document_type ≠ DocumentType.YOUTUBE_VIDEO) :
    create_documents db user request = ([], Except.error ⟨400, "Invalid document type"⟩) := by
  obtain ⟨ty, content, ssid⟩ := request
  unfold create_documents
  rw [hown]
  cases ty with
  | EXTENSION => exact absurd rfl h1
  | CRAWLED_URL => exact absurd rfl h2
  | YOUTUBE_VIDEO => exact absurd rfl h3
  | FILE => rfl

/-- Witness for C4: submitting a FILE-typed request to an owned search space
answers 400 with no tasks scheduled. -/
theorem create_documents_invalid_type_400_witness :
    create_documents dbTwo user1 reqInvalidType =
      ([], Except.error ⟨400, "Invalid document type"⟩) :=
  create_documents_invalid_type_400 dbTwo user1 reqInvalidType ss1 rfl
    (by decide) (by decide) (by decide)

/-- C5: a POST /documents/fileupload request with an empty file list (to an
owned search space, the ownership check running first) fails with a 400
client error, and the handler creates no temporary file and schedules no
background task before raising it. -/
theorem fileupload_empty_files_400 (db : DB) (user : User) (search_space_id : Nat)
    (s : SearchSpace)
    (hown : check_ownership db search_space_id user = Except.ok s) :
    create_documents_fileupload db user [] search_space_id =
      ([], [], Except.error ⟨400, "No files provided"⟩) := by
  unfold create_documents_fileupload
  rw [hown]
  rfl

/-- Witness for C5: uploading zero files to the owned search space 1 answers
400 with no temp files and no tasks. -/
theorem fileupload_empty_files_400_witness :
    create_documents_fileupload dbTwo user1 [] 1 =
      ([], [], Except.error ⟨400, "No files provided"⟩) :=
  fileupload_empty_files_400 dbTwo user1 1 ss1 rfl

/-- C10: in `process_file_in_background`, when `loader.load()` raises, the
temporary file is never unlinked and the exception is only logged (the
routine itself raises nothing); when the load succeeds the file is unlinked,
and an unlink failure is swallowed by the bare `except: pass`, execution
continuing to the ingestion step. -/
theorem process_file_temp_cleanup :
    (∀ e unlinkFails addResult,
      process_file_in_background (Except.error e) unlinkFails addResult =
        (false, ["Error processing file in background: " ++ e])) ∧
    (∀ docs addResult,
      (process_file_in_background (Except.ok docs) false addResult).1 = true) ∧
    (∀ docs,
      process_file_in_background (Except.ok docs) true (Except.ok ()) = (false, [])) := by
  refine ⟨fun e u a => rfl, fun docs a => ?_, fun docs => rfl⟩
  cases a <;> rfl

/-- C1: every Document row the four endpoints return or mutate comes from the
`join(SearchSpace)` query filtered on `SearchSpace.user_id == user.id`: the
list endpoint and the single read only return documents whose owning search
space belongs to the authenticated user, and update and delete leave every
document not owned by the user untouched (for update, under primary-key
uniqueness of document ids). -/
theorem crud_tenant_isolation :
    (∀ db user skip limit docs,
      read_documents db user skip limit = Except.ok docs →
        ∀ r ∈ docs, isOwned db user r.search_space_id = true) ∧
    (∀ db user document_id r,
      read_document db user document_id = Except.ok r →
        isOwned db user r.search_space_id = true) ∧
    (∀ db user document_id u, (db.documents.map Document.id).Nodup →
      ∀ d ∈ db.documents, isOwned db user d.search_space_id = false →
        d ∈ (update_document db user document_id u).1.documents) ∧
    (∀ db user document_id, ∀ d ∈ db.documents,
      isOwned db user d.search_space_id = false →
        d ∈ (delete_document db user document_id).1.documents) := by
  refine ⟨?_, ?_, ?_, ?_⟩
  · intro db user skip limit docs h r hr
    rw [read_documents_eq] at h
    obtain rfl := Except.ok.inj h
    rcases List.mem_map.1 hr with ⟨d, hd, rfl⟩
    have hd2 : d ∈ ownedDocuments db user :=
      List.mem_of_mem_drop (List.mem_of_mem_take hd)
    have : (toDocumentRead d).search_space_id = d.search_space_id := rfl
    rw [this]
    exact mem_ownedDocuments hd2
  · intro db user document_id r h
    unfold read_document at h
    cases hinner : read_document_inner db user document_id with
    | error e => rw [hinner] at h; cases h
    | ok r0 =>
        rw [hinner] at h
        cases h
        unfold read_document_inner at hinner
        cases hfirst : firstOwnedDocument db user document_id with
        | none => rw [hfirst] at hinner; cases hinner
        | some d =>
            rw [hfirst] at hinner
            cases hinner
            have hspec := firstOwnedDocument_spec hfirst
            have : (toDocumentRead d).search_space_id = d.search_space_id := rfl
            rw [this]
            exact hspec.2.2
  · intro db user document_id u hnodup d hd hnot
    unfold update_document
    cases hfirst : firstOwnedDocument db user document_id with
    | none => exact hd
    | some d0 =>
        have hspec := firstOwnedDocument_spec hfirst
        have hne : d.id ≠ d0.id := by
          intro heq
          have : d = d0 :=
            List.inj_on_of_nodup_map hnodup hd hspec.1 heq
          rw [this, hspec.2.2] at hnot
          cases hnot
        have hcond : (d.id == d0.id) = false := beq_false_of_ne hne
        have hfix :
            (fun x => if x.id == d0.id then applyUpdate u d0 else x) d = d := by
          simp [hcond]
        exact hfix ▸ List.mem_map_of_mem _ hd
  · intro db user document_id d hd hnot
    unfold delete_document
    cases hfirst : firstOwnedDocument db user document_id with
    | none => exact hd
    | some d0 =>
        have hspec := firstOwnedDocument_spec hfirst
        have hne : d ≠ d0 := by
          intro heq
          rw [heq, hspec.2.2] at hnot
          cases hnot
        exact (List.mem_erase_of_ne hne).2 hd

/-- Witness for C1: in the two-tenant database, the list and single-read
endpoints only ever hand `user1` documents of the search space `user1` owns,
and updating or deleting document 10 leaves the other tenant's document 20
in place. -/
theorem crud_tenant_isolation_witness :
    isOwned dbTwo user1 1 = true ∧
    mkDoc 20 2 ∈ (update_document dbTwo user1 10 updTitleOnly).1.documents ∧
    mkDoc 20 2 ∈ (delete_document dbTwo user1 10).1.documents := by
  refine ⟨?_, ?_, ?_⟩
  · exact crud_tenant_isolation.1 dbTwo user1 0 300 _ rfl
      (toDocumentRead (mkDoc 10 1)) (by decide)
  · exact crud_tenant_isolation.2.2.1 dbTwo user1 10 updTitleOnly (by decide)
      (mkDoc 20 2) (by decide) (by decide)
  · exact crud_tenant_isolation.2.2.2 dbTwo user1 10 (mkDoc 20 2) (by decide) (by decide)

/-- C6: a successful PUT /documents/{id} assigns exactly the fields set in the
payload on the stored document: the database holds the target row with
`applyUpdate` applied, each field set in the payload takes the payload's
value, each omitted (unset) field keeps its prior value, and the fields the
payload cannot carry (`id`, `created_at`) are untouched. -/
theorem update_document_partial_update (db : DB) (user : User) (document_id : Nat)
    (u : DocumentUpdate) (d0 : Document)
    (h : firstOwnedDocument db user document_id = some d0) :
    update_document db user document_id u =
      ({ db with documents := db.documents.map (fun d => if d.id == d0.id then applyUpdate u d0 else d) },
       Except.ok (toDocumentRead (applyUpdate u d0))) ∧
    (u.title = none → (applyUpdate u d0).title = d0.title) ∧
    (∀ v, u.title = some v → (applyUpdate u d0).title = v) ∧
    (u.document_type = none → (applyUpdate u d0).document_type = d0.document_type) ∧
    (∀ v, u.document_type = some v → (applyUpdate u d0).document_type = v) ∧
    (u.document_metadata = none →
      (applyUpdate u d0).document_metadata = d0.document_metadata) ∧
    (∀ v, u.document_metadata = some v → (applyUpdate u d0).document_metadata = v) ∧
    (u.content = none → (applyUpdate u d0).content = d0.content) ∧
    (∀ v, u.content = some v → (applyUpdate u d0).content = v) ∧
    (u.search_space_id = none →
      (applyUpdate u d0).search_space_id = d0.search_space_id) ∧
    (∀ v, u.search_space_id = some v → (applyUpdate u d0).search_space_id = v) ∧
    (applyUpdate u d0).id = d0.id ∧
    (applyUpdate u d0).created_at = d0.created_at := by
  refine ⟨by unfold update_document; rw [h], ?_, ?_, ?_, ?_, ?_, ?_, ?_, ?_, ?_, ?_, rfl, rfl⟩
  all_goals first
    | (intro hv; simp [applyUpdate, hv])
    | (intro v hv; simp [applyUpdate, hv])

/-- Witness for C6: updating only the title of document 10 gives it the new
title while its content (omitted from the payload) keeps its prior value. -/
theorem update_document_partial_update_witness :
    (applyUpdate updTitleOnly (mkDoc 10 1)).title = "new title" ∧
    (applyUpdate updTitleOnly (mkDoc 10 1)).content = (mkDoc 10 1).content := by
  obtain ⟨heq, ht0, ht1, hd0, hd1, hm0, hm1, hc0, hc1, hs0, hs1, hid, hca⟩ :=
    update_document_partial_update dbTwo user1 10 updTitleOnly (mkDoc 10 1) rfl
  exact ⟨ht1 "new title" rfl, hc0 rfl⟩

/-- C9: the update endpoint applies every set field via setattr, including
`search_space_id`, with no ownership check on the destination: for any
document the user owns and ANY destination search-space id (nothing
whatsoever is required of it), the update succeeds and the stored document
moves into that search space. -/
theorem update_document_moves_search_space (db : DB) (user : User)
    (document_id : Nat) (d0 : Document) (new_search_space_id : Nat)
    (h : firstOwnedDocument db user document_id = some d0) :
    ∃ d1,
      update_document db user document_id
          ⟨none, none, none, none, some new_search_space_id⟩ =
        ({ db with documents := db.documents.map (fun d => if d.id == d0.id then d1 else d) },
         Except.ok (toDocumentRead d1)) ∧
      d1.search_space_id = new_search_space_id ∧
      d1.id = d0.id ∧ d1.title = d0.title ∧ d1.content = d0.content := by
  refine ⟨applyUpdate ⟨none, none, none, none, some new_search_space_id⟩ d0,
    by unfold update_document; rw [h], ?_, rfl, rfl, rfl⟩
  simp [applyUpdate]

/-- Witness for C9: `user1` moves their document 10 into search space 2, which
belongs to the other user (it is not owned by `user1`), and the update
succeeds anyway. -/
theorem update_document_moves_search_space_witness :
    isOwned dbTwo user1 2 = false ∧
    ∃ d1,
      update_document dbTwo user1 10 ⟨none, none, none, none, some 2⟩ =
        ({ dbTwo with documents := dbTwo.documents.map (fun d => if d.id == (mkDoc 10 1).id then d1 else d) },
         Except.ok (toDocumentRead d1)) ∧
      d1.search_space_id = 2 ∧
      d1.id = (mkDoc 10 1).id ∧ d1.title = (mkDoc 10 1).title ∧
      d1.content = (mkDoc 10 1).content :=
  ⟨by decide, update_document_moves_search_space dbTwo user1 10 (mkDoc 10 1) 2 rfl⟩

/-- C7: GET /documents/ paginates the user's documents: `skip` defaults to 0
and `limit` to 300, the response is exactly the window of the user's
documents that drops the first `skip` and takes at most `limit` of the rest
(so its length never exceeds `limit`); on a search space with 5 documents,
skip=0,limit=2 yields exactly the first 2 and skip=2,limit=2 the next 2,
with no overlap between the two pages. -/
theorem read_documents_pagination :
    read_documents_default_skip = 0 ∧
    read_documents_default_limit = 300 ∧
    (∀ db user skip limit,
      read_documents db user skip limit =
        Except.ok ((((ownedDocuments db user).map toDocumentRead).drop skip).take limit) ∧
      ∀ docs, read_documents db user skip limit = Except.ok docs →
        docs.length ≤ limit) ∧
    (read_documents db5 user1 0 2 =
       Except.ok [toDocumentRead (mkDoc 1 1), toDocumentRead (mkDoc 2 1)] ∧
     read_documents db5 user1 2 2 =
       Except.ok [toDocumentRead (mkDoc 3 1), toDocumentRead (mkDoc 4 1)] ∧
     (ownedDocuments db5 user1).length = 5 ∧
     toDocumentRead (mkDoc 1 1) ∉
       [toDocumentRead (mkDoc 3 1), toDocumentRead (mkDoc 4 1)] ∧
     toDocumentRead (mkDoc 2 1) ∉
       [toDocumentRead (mkDoc 3 1), toDocumentRead (mkDoc 4 1)]) := by
  refine ⟨rfl, rfl, fun db user skip limit => ⟨?_, ?_⟩, rfl, rfl, by decide,
    by decide, by decide⟩
  · rw [read_documents_eq]
    simp [List.map_take, List.map_drop]
  · intro docs h
    rw [read_documents_eq] at h
    obtain rfl := Except.ok.inj h
    simp [List.length_take]

/-- Counterexample for C8: the other files' portions of the request are NOT
unaffected by one file's staging failure.  With the same two-file request,
file "b.txt" is staged (temp file plus scheduled task) when "a.txt" stages
cleanly, but when "a.txt" fails, the raised 422 aborts the loop and "b.txt"
gets no temporary file and no task at all. -/
theorem fileupload_failure_affects_later_files :
    (create_documents_fileupload dbTwo user1 [fileA_bad, fileB_ok] 1).2.1 = [] ∧
    (create_documents_fileupload dbTwo user1 [fileA_bad, fileB_ok] 1).1 = [tempName 0] ∧
    (create_documents_fileupload dbTwo user1 [fileA_ok, fileB_ok] 1).2.1 =
      [BackgroundTask.process_file (tempName 0) "a.txt" 1,
       BackgroundTask.process_file (tempName 1) "b.txt" 1] ∧
    (create_documents_fileupload dbTwo user1 [fileA_ok, fileB_ok] 1).1 =
      [tempName 0, tempName 1] :=
  ⟨rfl, rfl, rfl, rfl⟩

/-- Unfolding equation of the staging loop on a file whose staging
succeeds. -/
theorem stage_files_cons_ok (g : UploadFile) (rest : List UploadFile)
    (search_space_id i : Nat) (hg : g.stagingError = none) :
    stage_files (g :: rest) search_space_id i =
      (tempName i :: (stage_files rest search_space_id (i + 1)).1,
       BackgroundTask.process_file (tempName i) g.filename search_space_id ::
         (stage_files rest search_space_id (i + 1)).2.1,
       (stage_files rest search_space_id (i + 1)).2.2) := by
  simp [stage_files, hg]

/-- What the staging loop does when the first failure sits after an
all-successful prefix: it stages the prefix, creates the failing file's temp
file, raises a 422 naming that file, and never reaches the remaining
files. -/
theorem stage_files_first_failure (pre : List UploadFile) (file : UploadFile)
    (post : List UploadFile) (search_space_id : Nat) (msg : String)
    (hpre : ∀ g ∈ pre, g.stagingError = none)
    (hf : file.stagingError = some msg) :
    ∀ i, stage_files (pre ++ file :: post) search_space_id i =
      (staged_paths pre i ++ [tempName (i + pre.length)],
       staged_tasks pre search_space_id i,
       some ⟨422, "Failed to process file " ++ file.filename ++ ": " ++ msg⟩) := by
  induction pre with
  | nil =>
      intro i
      simp only [List.nil_append, stage_files, hf, staged_paths, staged_tasks,
        List.length_nil, Nat.add_zero, List.nil_append]
  | cons g rest ih =>
      intro i
      have hg : g.stagingError = none := hpre g (List.mem_cons_self g rest)
      have hrest : ∀ x ∈ rest, x.stagingError = none :=
        fun x hx => hpre x (List.mem_cons_of_mem g hx)
      rw [List.cons_append, stage_files_cons_ok g (rest ++ file :: post)
        search_space_id i hg, ih hrest (i + 1)]
      have hlen : i + 1 + rest.length = i + (g :: rest).length := by
        simp only [List.length_cons]
        omega
      rw [hlen]
      rfl

/-- C8 (amended): on a POST /documents/fileupload request containing a failing
file, the endpoint fails with a 422 naming the FIRST file whose staging
fails, but not independently of the other files: files before it are staged
normally (their temp files written and their tasks scheduled, though the
tasks are discarded with the error response), while the files after it are
never staged at all — the failure aborts their portions of the request. -/
theorem fileupload_staging_failure_422 (db : DB) (user : User)
    (search_space_id : Nat) (s : SearchSpace)
    (pre post : List UploadFile) (file : UploadFile) (msg : String)
    (hown : check_ownership db search_space_id user = Except.ok s)
    (hpre : ∀ g ∈ pre, g.stagingError = none)
    (hf : file.stagingError = some msg) :
    create_documents_fileupload db user (pre ++ file :: post) search_space_id =
      (staged_paths pre 0 ++ [tempName pre.length],
       staged_tasks pre search_space_id 0,
       Except.error ⟨422, "Failed to process file " ++ file.filename ++ ": " ++ msg⟩) := by
  unfold create_documents_fileupload
  rw [hown]
  have hne : (pre ++ file :: post).isEmpty = false := by
    cases pre <;> rfl
  rw [hne]
  rw [stage_files_first_failure pre file post search_space_id msg hpre hf 0]
  simp [Nat.zero_add]

/-- Witness for C8 (amended): in [a.txt ok, c.txt fails, b.txt ok], the
request fails with a 422 naming c.txt, a.txt was staged, and b.txt was
not. -/
theorem fileupload_staging_failure_422_witness :
    create_documents_fileupload dbTwo user1 [fileA_ok, fileC_bad, fileB_ok] 1 =
      (staged_paths [fileA_ok] 0 ++ [tempName 1],
       staged_tasks [fileA_ok] 1 0,
       Except.error ⟨422, "Failed to process file c.txt: disk full"⟩) := by
  have h := fileupload_staging_failure_422 dbTwo user1 1 ss1 [fileA_ok] [fileB_ok]
    fileC_bad "disk full" rfl (by decide) rfl
  exact h

end SurfSense
